import Mathlib

/-!
Shallow embedding of the query-tracking-system backend core:
the query lifecycle service (`src/backend/src/services/queryService.js`),
the response service, the ML classification gateway
(`src/backend/src/services/mlService.js`) and the integration manager
(connector registry / supervisor).

Conventions of the embedding:
* JavaScript strings are Lean `String`s; an absent (`undefined`/`null`)
  string-valued field is `Option.none`, and JS truthiness of a string
  (`undefined`, `null` and `""` are falsy) is `strTruthy`.
* The Prisma/PostgreSQL store is an explicit record of lists (`Db`);
  a thrown JS error is `Except.error`.
* Time is modeled as a `Nat` counting hours; each stateful operation takes
  the current time `now` as an argument (one logical clock per call, standing
  for `new Date()` / the row's `CURRENT_TIMESTAMP` default).
* External I/O outcomes (the classifier HTTP call, a connector's
  `testConnection`/`stop`) are passed in as oracle values, since they are
  decided by the outside world.
-/

namespace QTS

/-- Contiguous-segment membership on character lists: `segIn n h` is true
iff `n` occurs as a contiguous run inside `h` (JS `String.prototype.includes`). -/
def segIn (needle : List Char) : List Char → Bool
  | [] => needle.isEmpty
  | c :: rest => needle.isPrefixOf (c :: rest) || segIn needle rest

/-- `s.toLowerCase()` viewed as a character list. -/
def lowerChars (s : String) : List Char := s.data.map Char.toLower

/-- JS `content.toLowerCase().includes(keyword)` for a lowercase keyword. -/
def includesLower (content : String) (keyword : String) : Bool :=
  segIn keyword.data (lowerChars content)

/-- JS truthiness of an optional string: `undefined`/`null`/`""` are falsy. -/
def strTruthy : Option String → Bool
  | none => false
  | some s => !(s == "")

/-- JS `a || b` where `a` is an optional string and `b` a string. -/
def orElseStr (a : Option String) (b : String) : String :=
  match a with
  | none => b
  | some s => if s == "" then b else s

/-- JS `a || b` on optional strings, keeping absence (`intent || (ml?.intent || null)`). -/
def orElseOptStr (a b : Option String) : Option String :=
  if strTruthy a then a else b

/-- `config.slaTimes` from `src/backend/src/config/config.js` (hours per priority). -/
def slaTimes : String → Option Nat := fun p =>
  if p == "CRITICAL" then some 1
  else if p == "HIGH" then some 4
  else if p == "MEDIUM" then some 24
  else if p == "LOW" then some 72
  else none

/-- `config.slaTimes[priority] || config.slaTimes.MEDIUM`. -/
def slaHours (priority : String) : Nat :=
  match slaTimes priority with
  | some h => h
  | none => 24

/-- `calculateSlaDueAt`: current time plus the hours-per-priority lookup. -/
def calculateSlaDueAt (now : Nat) (priority : String) : Nat :=
  now + slaHours priority

/-- The fixed urgency keyword list of `detectPriority`. -/
def urgentKeywords : List String :=
  ["urgent", "critical", "emergency", "asap", "immediately", "broken", "down"]

/-- `detectPriority(content, isVip, sentiment)` from queryService.js. -/
def detectPriority (content : String) (isVip : Bool) (sentiment : String) : String :=
  if isVip then "HIGH"
  else if sentiment == "NEGATIVE" then "HIGH"
  else if urgentKeywords.any (fun keyword => includesLower content keyword) then "HIGH"
  else "MEDIUM"

/-- The analysis object returned by the ML service (`/analyze` response body).
Optional fields model JSON fields that may be absent; confidences are scaled
by 100 (the source's `0.5` is `50`), which keeps JS falsiness of `0` exact. -/
structure MLAnalysis where
  category : Option String
  category_confidence : Option Nat
  sentiment : Option String
  intent : Option String
  priority : Option String
  is_urgent : Bool
  is_vip : Bool
  auto_tags : List String
  keywords : List String
  deriving DecidableEq, Repr

/-- Outcome of the HTTP POST to the classifier: axios throws on timeout,
connection failure and non-2xx status; `emptyBody` models a falsy
`response.data` (which `analyzeQuery` turns into a thrown error). -/
inductive MLOutcome where
  | timeout
  | connectionFailure
  | non2xx (code : Nat)
  | emptyBody
  | ok (data : MLAnalysis)
  deriving DecidableEq, Repr

/-- True on every outcome the `try`/`catch` of `MLService.analyzeQuery` absorbs. -/
def mlFailed : MLOutcome → Bool
  | .ok _ => false
  | _ => true

namespace MLService

/-- `MLService.getDefaultAnalysis()`: the fixed fallback analysis. -/
def getDefaultAnalysis : MLAnalysis :=
  { category := some "question"
    category_confidence := some 50
    sentiment := some "NEUTRAL"
    intent := some "general"
    priority := some "MEDIUM"
    is_urgent := false
    is_vip := false
    auto_tags := ["question", "sentiment_neutral", "priority_medium"]
    keywords := [] }

/-- `MLService.analyzeQuery`: returns the service's body on success and the
default analysis on any caught failure (timeout, connection error, non-2xx,
empty body); it never rethrows. -/
def analyzeQuery (outcome : MLOutcome) : MLAnalysis :=
  match outcome with
  | .ok data => data
  | _ => getDefaultAnalysis

end MLService

/-- A persisted `channels` row (the fields the core reads). -/
structure Channel where
  id : Nat
  type : String
  isActive : Bool
  deriving DecidableEq, Repr

/-- A persisted `categories` row. -/
structure Category where
  id : Nat
  name : String
  deriving DecidableEq, Repr

/-- A persisted `users` row (only identity matters to the core). -/
structure User where
  id : Nat
  deriving DecidableEq, Repr

/-- A persisted `queries` row (the columns the lifecycle engine touches).
`status` defaults to `"NEW"` and `receivedAt` to the insert time, as in the
migration DDL. -/
structure Query where
  id : Nat
  channelId : Nat
  categoryId : Option Nat
  subject : Option String
  content : String
  senderName : Option String
  senderEmail : Option String
  sentiment : String
  intent : Option String
  confidence : Nat
  autoTags : List String
  priority : String
  status : String
  isVip : Bool
  isUrgent : Bool
  externalId : Option String
  threadId : Option String
  receivedAt : Nat
  assignedAt : Option Nat
  slaDueAt : Nat
  deriving DecidableEq, Repr

/-- A persisted `assignments` row. -/
structure Assignment where
  id : Nat
  queryId : Nat
  userId : Nat
  assignedBy : Option Nat
  notes : Option String
  deriving DecidableEq, Repr

/-- A persisted `responses` row. -/
structure Response where
  id : Nat
  queryId : Nat
  userId : Nat
  content : String
  isInternal : Bool
  deriving DecidableEq, Repr

/-- The relational store reachable through Prisma: one list per table plus a
fresh-id counter standing for the id generator. -/
structure Db where
  channels : List Channel
  categories : List Category
  users : List User
  queries : List Query
  assignments : List Assignment
  responses : List Response
  nextId : Nat
  deriving DecidableEq, Repr

/-- Errors thrown by the services: `ValidationError`, `NotFoundError`, and a
store-level unique-index violation (Prisma surfaces it as a thrown error). -/
inductive JsError where
  | validation (msg : String)
  | notFound (resource : String)
  | uniqueConstraint (index : String)
  deriving DecidableEq, Repr

/-- The migration's `queries_external_id_key` unique index on `external_id`
alone: an insert is rejected iff its key is non-null and some persisted row
(on any channel) already carries the same key. SQL `NULL`s never collide. -/
def externalIdTaken (db : Db) (ext : Option String) : Bool :=
  match ext with
  | none => false
  | some e => db.queries.any (fun q => q.externalId == some e)

/-- The argument object of `createQuery` (fields the service destructures).
`content` is a plain string with `""` standing for an absent/falsy content. -/
structure CreateQueryInput where
  channelId : Nat
  categoryId : Option Nat
  subject : Option String
  content : String
  senderName : Option String
  senderEmail : Option String
  sentiment : Option String
  intent : Option String
  confidence : Option Nat
  autoTags : Option (List String)
  priority : Option String
  isVip : Option Bool
  externalId : Option String
  threadId : Option String
  skipMLAnalysis : Bool
  deriving DecidableEq, Repr

/-- The `mlAnalysis` variable of `createQuery`: the classifier is consulted
unless `skipMLAnalysis` is set or `content` is falsy; `MLService.analyzeQuery`
itself never throws, so `createQuery`'s surrounding `try`/`catch` never
fires and the variable is exactly its return value. -/
def mlAnalysisOf (input : CreateQueryInput) (ml : MLOutcome) : Option MLAnalysis :=
  if !input.skipMLAnalysis && !(input.content == "") then
    some (MLService.analyzeQuery ml)
  else none

/-- `finalSentiment = sentiment || (mlAnalysis?.sentiment || 'NEUTRAL')`. -/
def finalSentimentOf (input : CreateQueryInput) (ml : MLOutcome) : String :=
  orElseStr input.sentiment (orElseStr ((mlAnalysisOf input ml).bind (·.sentiment)) "NEUTRAL")

/-- `finalIntent = intent || (mlAnalysis?.intent || null)`. -/
def finalIntentOf (input : CreateQueryInput) (ml : MLOutcome) : Option String :=
  orElseOptStr input.intent (orElseOptStr ((mlAnalysisOf input ml).bind (·.intent)) none)

/-- `finalConfidence = confidence ?? (mlAnalysis?.category_confidence || 0.5)`. -/
def finalConfidenceOf (input : CreateQueryInput) (ml : MLOutcome) : Nat :=
  match input.confidence with
  | some c => c
  | none =>
    match (mlAnalysisOf input ml).bind (·.category_confidence) with
    | some c => if c == 0 then 50 else c
    | none => 50

/-- `finalAutoTags = autoTags || (mlAnalysis?.auto_tags || [])` (a supplied
array, even empty, is truthy in JS). -/
def finalAutoTagsOf (input : CreateQueryInput) (ml : MLOutcome) : List String :=
  match input.autoTags with
  | some tags => tags
  | none =>
    match mlAnalysisOf input ml with
    | some a => a.auto_tags
    | none => []

/-- `finalIsVip = isVip ?? (mlAnalysis?.is_vip || false)`. -/
def finalIsVipOf (input : CreateQueryInput) (ml : MLOutcome) : Bool :=
  match input.isVip with
  | some b => b
  | none =>
    match mlAnalysisOf input ml with
    | some a => a.is_vip
    | none => false

/-- The two reassignments of `finalPriority` before the heuristic: start from
the caller's `priority`; when that is falsy and an ML analysis exists, take
`mlAnalysis.priority` (which may itself be absent). -/
def priorityBeforeDetect (input : CreateQueryInput) (ml : MLOutcome) : Option String :=
  if strTruthy input.priority then input.priority
  else
    match mlAnalysisOf input ml with
    | some a => a.priority
    | none => input.priority

/-- The fully resolved priority: when `priorityBeforeDetect` is still falsy,
fall back to `detectPriority(content, finalIsVip, finalSentiment)`. -/
def finalPriorityOf (input : CreateQueryInput) (ml : MLOutcome) : String :=
  orElseStr (priorityBeforeDetect input ml)
    (detectPriority input.content (finalIsVipOf input ml) (finalSentimentOf input ml))

/-- `finalCategoryId`: the caller's category id, else — when the classifier
supplied a truthy category name — the id of the first stored category whose
name matches case-insensitively, else none. -/
def finalCategoryIdOf (db : Db) (input : CreateQueryInput) (ml : MLOutcome) : Option Nat :=
  match input.categoryId with
  | some cid => some cid
  | none =>
    match (mlAnalysisOf input ml).bind (·.category) with
    | some cname =>
      if cname == "" then none
      else
        match db.categories.find? (fun cat => lowerChars cat.name == lowerChars cname) with
        | some cat => some cat.id
        | none => none
    | none => none

/-- The `if (finalCategoryId) ... findUnique` existence check. -/
def categoryOkOf (db : Db) (input : CreateQueryInput) (ml : MLOutcome) : Bool :=
  match finalCategoryIdOf db input ml with
  | some cid => (db.categories.find? (fun cat => cat.id == cid)).isSome
  | none => true

/-- `isUrgent = mlAnalysis?.is_urgent || finalPriority === 'HIGH' || finalPriority === 'CRITICAL'`. -/
def isUrgentOf (input : CreateQueryInput) (ml : MLOutcome) : Bool :=
  (match mlAnalysisOf input ml with
    | some a => a.is_urgent
    | none => false)
  || finalPriorityOf input ml == "HIGH" || finalPriorityOf input ml == "CRITICAL"

/-- The row handed to `prisma.query.create`, with the columns the data object
omits (`id`, `status`, `receivedAt`, `assignedAt`) filled by their schema
defaults. -/
def newQueryOf (db : Db) (input : CreateQueryInput) (ml : MLOutcome) (now : Nat) : Query :=
  { id := db.nextId
    channelId := input.channelId
    categoryId := finalCategoryIdOf db input ml
    subject := input.subject
    content := input.content
    senderName := input.senderName
    senderEmail := input.senderEmail
    sentiment := finalSentimentOf input ml
    intent := finalIntentOf input ml
    confidence := finalConfidenceOf input ml
    autoTags := finalAutoTagsOf input ml
    priority := finalPriorityOf input ml
    status := "NEW"
    isVip := finalIsVipOf input ml
    isUrgent := isUrgentOf input ml
    externalId := input.externalId
    threadId := input.threadId
    receivedAt := now
    assignedAt := none
    slaDueAt := calculateSlaDueAt now (finalPriorityOf input ml) }

/-- The store after `prisma.query.create` appends the new row. -/
def createdDb (db : Db) (input : CreateQueryInput) (ml : MLOutcome) (now : Nat) : Db :=
  { db with queries := db.queries ++ [newQueryOf db input ml now], nextId := db.nextId + 1 }

/-- `createQuery(queryData)` from queryService.js. The classifier HTTP
outcome `ml` and the call time `now` are oracle inputs. Mirrors the source:
channel existence check; ML analysis and resolution of the final fields with
JS falsy/nullish semantics (the named functions above); category existence
check; and the insert guarded by the store's unique index on `external_id`. -/
def createQuery (db : Db) (input : CreateQueryInput) (ml : MLOutcome) (now : Nat) :
    Except JsError (Db × Query) :=
  match db.channels.find? (fun c => c.id == input.channelId) with
  | none => .error (.validation "Channel not found")
  | some _ =>
    if !(categoryOkOf db input ml) then .error (.validation "Category not found")
    else if externalIdTaken db input.externalId then
      .error (.uniqueConstraint "queries_external_id_key")
    else .ok (createdDb db input ml now, newQueryOf db input ml now)

/-- The fields `updateQuery` forwards to `prisma.query.update` (those the
claims exercise); absent fields are left unchanged, present fields applied. -/
structure UpdateQueryInput where
  priority : Option String
  status : Option String
  subject : Option String
  content : Option String
  slaDueAt : Option Nat
  deriving DecidableEq, Repr

/-- The row after `prisma.query.update` applies `updateData` — with
`updateData.slaDueAt` first overwritten by `calculateSlaDueAt(updateData.priority)`
when a truthy priority different from the stored one is supplied. -/
def updatedQueryOf (q : Query) (upd : UpdateQueryInput) (now : Nat) : Query :=
  let slaRecalc : Bool :=
    match upd.priority with
    | some p => !(p == "") && !(p == q.priority)
    | none => false
  { q with
    priority := match upd.priority with | some p => p | none => q.priority
    status := match upd.status with | some s => s | none => q.status
    subject := match upd.subject with | some s => some s | none => q.subject
    content := match upd.content with | some c => c | none => q.content
    slaDueAt :=
      if slaRecalc then
        calculateSlaDueAt now (match upd.priority with | some p => p | none => q.priority)
      else match upd.slaDueAt with | some t => t | none => q.slaDueAt }

/-- `updateQuery(queryId, updateData)`: `getQueryById`, then, when a truthy
priority different from the stored one is supplied, overwrite
`updateData.slaDueAt` with `calculateSlaDueAt` as of now, then apply. -/
def updateQuery (db : Db) (queryId : Nat) (upd : UpdateQueryInput) (now : Nat) :
    Except JsError (Db × Query) :=
  match db.queries.find? (fun q => q.id == queryId) with
  | none => .error (.notFound "Query")
  | some q =>
    let q' : Query := updatedQueryOf q upd now
    .ok ({ db with queries := db.queries.map (fun x => if x.id == queryId then q' else x) }, q')

/-- The Assignment row handed to `prisma.assignment.create`. -/
def newAssignmentOf (db : Db) (queryId userId : Nat) (assignedBy : Option Nat)
    (notes : Option String) : Assignment :=
  { id := db.nextId, queryId := queryId, userId := userId
    assignedBy := assignedBy, notes := notes }

/-- The store after a successful `assignQuery`: the Assignment is inserted
and, only when the query's pre-call status (`query`, fetched before the
insert) is `NEW`, the query row moves to `ASSIGNED` with `assignedAt`
stamped. -/
def assignResultDb (db : Db) (queryId userId : Nat) (assignedBy : Option Nat)
    (notes : Option String) (now : Nat) (query : Query) : Db :=
  let db1 : Db :=
    { db with
      assignments := db.assignments ++ [newAssignmentOf db queryId userId assignedBy notes]
      nextId := db.nextId + 1 }
  if query.status == "NEW" then
    { db1 with
      queries := db1.queries.map (fun q =>
        if q.id == queryId then { q with status := "ASSIGNED", assignedAt := some now } else q) }
  else db1

/-- `assignQuery(queryId, userId, assignedBy, notes)`: query and user must
exist; a second Assignment for the same `(query, user)` pair is rejected with
a `ValidationError` before anything is written; on success the Assignment is
inserted and, only when the query's (pre-call) status is `NEW`, the query
moves to `ASSIGNED` with `assignedAt` stamped. -/
def assignQuery (db : Db) (queryId userId : Nat) (assignedBy : Option Nat)
    (notes : Option String) (now : Nat) : Except JsError (Db × Assignment) :=
  match db.queries.find? (fun q => q.id == queryId) with
  | none => .error (.notFound "Query")
  | some query =>
    match db.users.find? (fun u => u.id == userId) with
    | none => .error (.notFound "User")
    | some _ =>
      match db.assignments.find? (fun a => a.queryId == queryId && a.userId == userId) with
      | some _ => .error (.validation "Query is already assigned to this user")
      | none =>
        .ok (assignResultDb db queryId userId assignedBy notes now query,
          newAssignmentOf db queryId userId assignedBy notes)

/-- The argument object of `createResponse` (isInternal defaults to false at
the destructuring). -/
structure CreateResponseInput where
  queryId : Nat
  userId : Nat
  content : String
  isInternal : Bool
  deriving DecidableEq, Repr

/-- The Response row handed to `prisma.response.create`. -/
def newResponseOf (db : Db) (input : CreateResponseInput) : Response :=
  { id := db.nextId, queryId := input.queryId, userId := input.userId
    content := input.content, isInternal := input.isInternal }

/-- The store after a successful `createResponse`: the Response is inserted
and, whenever the query's pre-call status is `NEW` or `ASSIGNED`, the query
row moves to `IN_PROGRESS` — the source performs this update regardless of
`isInternal`. -/
def respondResultDb (db : Db) (input : CreateResponseInput) (query : Query) : Db :=
  let db1 : Db :=
    { db with responses := db.responses ++ [newResponseOf db input], nextId := db.nextId + 1 }
  if query.status == "NEW" || query.status == "ASSIGNED" then
    { db1 with
      queries := db1.queries.map (fun q =>
        if q.id == input.queryId then { q with status := "IN_PROGRESS" } else q) }
  else db1

/-- `createResponse(responseData)` from the response service: query and user
must exist; the Response row is inserted; then, whenever the query's
(pre-call) status is `NEW` or `ASSIGNED`, the query moves to `IN_PROGRESS` —
the source performs this update regardless of `isInternal`. -/
def createResponse (db : Db) (input : CreateResponseInput) :
    Except JsError (Db × Response) :=
  match db.queries.find? (fun q => q.id == input.queryId) with
  | none => .error (.notFound "Query")
  | some query =>
    match db.users.find? (fun u => u.id == input.userId) with
    | none => .error (.notFound "User")
    | some _ => .ok (respondResultDb db input query, newResponseOf db input)

/-- The value of `testConnection()` (connectors return a result, not a throw;
a throw from a buggy connector is modeled by the oracle below). -/
structure TestResult where
  success : Bool
  message : String
  deriving DecidableEq, Repr

deriving instance DecidableEq for Except

/-- External behavior of one connector instance: what its `testConnection()`
and `stop()` calls would do, decided by the outside world. -/
structure IntegrationBehavior where
  testOutcome : Except String TestResult
  stopOutcome : Except String Unit
  deriving DecidableEq, Repr

/-- One live connector runtime instance tracked by the manager. -/
structure Integration where
  channelId : Nat
  behavior : IntegrationBehavior
  deriving DecidableEq, Repr

/-- `this.integrations`: the manager's Map from channel id to instance. -/
abbrev Registry := List (Nat × Integration)

/-- `Map.prototype.get`. -/
def regGet (reg : Registry) (channelId : Nat) : Option Integration :=
  (reg.find? (fun p => p.1 == channelId)).map (·.2)

/-- `Map.prototype.set` (replaces an existing entry, else appends). -/
def regSet (reg : Registry) (channelId : Nat) (inst : Integration) : Registry :=
  if (reg.find? (fun p => p.1 == channelId)).isSome then
    reg.map (fun p => if p.1 == channelId then (channelId, inst) else p)
  else reg ++ [(channelId, inst)]

/-- `Map.prototype.delete`. -/
def regDelete (reg : Registry) (channelId : Nat) : Registry :=
  reg.filter (fun p => !(p.1 == channelId))

/-- The keys of `integrationMap` in `getIntegrationClass`. -/
def supportedChannelTypes : List String :=
  ["EMAIL", "TWITTER", "FACEBOOK", "INSTAGRAM", "DISCORD", "SLACK"]

/-- `IntegrationManager.initializeChannel`: throws when the channel row is
missing; returns `null` (registry untouched) when the channel is inactive or
its type has no integration class; otherwise constructs a fresh instance
(with behavior `fresh`, an oracle), registers it under the channel id —
overwriting any previous entry — and returns it. -/
def initializeChannel (channels : List Channel) (reg : Registry) (channelId : Nat)
    (fresh : IntegrationBehavior) : Except String (Registry × Option Integration) :=
  match channels.find? (fun c => c.id == channelId) with
  | none => .error "Channel not found"
  | some channel =>
    if !channel.isActive then .ok (reg, none)
    else if !(supportedChannelTypes.contains channel.type) then .ok (reg, none)
    else
      let inst : Integration := { channelId := channelId, behavior := fresh }
      .ok (regSet reg channelId inst, some inst)

/-- `IntegrationManager.stopChannel`: result plus post-call registry. With no
tracked instance it warns and returns. Otherwise it awaits `stop()` —
when `stop()` throws, the catch logs and rethrows, so the `delete` on the
next line is never reached and the entry stays; only a successful `stop()`
is followed by removal. -/
def stopChannel (reg : Registry) (channelId : Nat) : Except String Unit × Registry :=
  match regGet reg channelId with
  | none => (.ok (), reg)
  | some inst =>
    match inst.behavior.stopOutcome with
    | .error e => (.error e, reg)
    | .ok _ => (.ok (), regDelete reg channelId)

/-- `IntegrationManager.testChannelConnection`: result plus post-call
registry. `initializeChannel` registers the throwaway instance; when
`testConnection()` returns, `stop()` is awaited with its error swallowed and
the entry is deleted; when `testConnection()` throws, the outer catch turns
it into a failure result and the delete is never reached. A thrown
`initializeChannel` (missing channel) is also absorbed into a failure
result, with the registry untouched. -/
def testChannelConnection (channels : List Channel) (reg : Registry) (channelId : Nat)
    (fresh : IntegrationBehavior) : TestResult × Registry :=
  match initializeChannel channels reg channelId fresh with
  | .error msg => ({ success := false, message := msg }, reg)
  | .ok (reg1, none) =>
    ({ success := false, message := "Integration not available for this channel type" }, reg1)
  | .ok (reg1, some inst) =>
    match inst.behavior.testOutcome with
    | .error msg => ({ success := false, message := msg }, reg1)
    | .ok result => (result, regDelete reg1 channelId)

/-! ### Concrete fixtures used by witnesses and counterexamples -/

/-- An active email channel. -/
def chan1 : Channel := { id := 1, type := "EMAIL", isActive := true }

/-- A stored user. -/
def user7 : User := { id := 7 }

/-- A small store: one channel, one user, nothing else. -/
def baseDb : Db :=
  { channels := [chan1], categories := [], users := [user7],
    queries := [], assignments := [], responses := [], nextId := 100 }

/-- A creation event with every optional signal absent and the classifier
skipped. -/
def baseInput : CreateQueryInput :=
  { channelId := 1, categoryId := none, subject := none, content := "hello",
    senderName := none, senderEmail := none, sentiment := none, intent := none,
    confidence := none, autoTags := none, priority := none, isVip := none,
    externalId := none, threadId := none, skipMLAnalysis := true }

/-- The same event carrying the external dedup key `evt-1`. -/
def c1Input : CreateQueryInput := { baseInput with externalId := some "evt-1" }

/-- The store after the first successful ingestion of `c1Input`. -/
def c1Db1 : Db :=
  match createQuery baseDb c1Input .timeout 0 with
  | .ok (d, _) => d
  | .error _ => baseDb

/-- The query persisted by that first ingestion. -/
def c1Query : Query := newQueryOf baseDb c1Input .timeout 0

/-- A persisted query in status `NEW` with id 200. -/
def q200 : Query := { newQueryOf baseDb baseInput .timeout 0 with id := 200 }

/-- A persisted query in status `IN_PROGRESS` with id 201. -/
def q201 : Query := { q200 with id := 201, status := "IN_PROGRESS" }

/-- Store holding `q200` and `q201`. -/
def twoQueryDb : Db := { baseDb with queries := [q200, q201] }

/-- An internal note on the `NEW` query `q200`. -/
def c2Input : CreateResponseInput :=
  { queryId := 200, userId := 7, content := "internal note", isInternal := true }

/-- A public reply on the `IN_PROGRESS` query `q201`. -/
def c2bInput : CreateResponseInput :=
  { queryId := 201, userId := 7, content := "reply", isInternal := false }

/-- A signal-free event that lets the classifier run (`skipMLAnalysis` off). -/
def c5Input : CreateQueryInput := { baseInput with skipMLAnalysis := false }

/-- An urgent-worded event that lets the classifier run. -/
def c3Input : CreateQueryInput :=
  { baseInput with content := "urgent: site is down", skipMLAnalysis := false }

/-- Priority override used to exercise the SLA recomputation. -/
def c4Upd : UpdateQueryInput :=
  { priority := some "CRITICAL", status := none, subject := none,
    content := none, slaDueAt := none }

/-- The store after overriding the stored query's priority at time 500. -/
def c4Db2 : Db :=
  match updateQuery c1Db1 100 c4Upd 500 with
  | .ok (d, _) => d
  | .error _ => c1Db1

/-- The updated row returned by that override. -/
def c4Q2 : Query :=
  match updateQuery c1Db1 100 c4Upd 500 with
  | .ok (_, q) => q
  | .error _ => q200

/-- An urgent-worded event with the classifier skipped. -/
def c3aInput : CreateQueryInput := { baseInput with content := "URGENT please" }

/-- An event carrying an explicit priority. -/
def c3bInput : CreateQueryInput := { baseInput with priority := some "LOW" }

/-- The query persisted for `c3aInput`. -/
def c3aQ : Query := newQueryOf baseDb c3aInput .timeout 0

/-- The query persisted for `c3bInput`. -/
def c3bQ : Query := newQueryOf baseDb c3bInput .timeout 0

/-- The migration's global uniqueness invariant for `external_id`: no two
distinct positions of the queries table share a non-null external key —
with no condition on the channel. -/
def ExternalIdUnique (db : Db) : Prop :=
  db.queries.Pairwise (fun a b => a.externalId = none ∨ a.externalId ≠ b.externalId)

/-- A successful `testConnection` result value. -/
def okResult : TestResult := { success := true, message := "Connection successful" }

/-- A connector whose `stop()` succeeds. -/
def behaviorGood : IntegrationBehavior :=
  { testOutcome := .ok okResult, stopOutcome := .ok () }

/-- A connector whose `stop()` throws. -/
def behaviorStopThrows : IntegrationBehavior :=
  { testOutcome := .ok okResult, stopOutcome := .error "stop failed" }

/-- A connector whose `testConnection()` throws. -/
def behaviorTestThrows : IntegrationBehavior :=
  { testOutcome := .error "connection refused", stopOutcome := .ok () }

/-- A healthy runtime instance for channel 1. -/
def instOld : Integration := { channelId := 1, behavior := behaviorGood }

/-- A runtime instance for channel 1 whose `stop()` throws. -/
def instBad : Integration := { channelId := 1, behavior := behaviorStopThrows }

/-! ### Inversion and bookkeeping lemmas -/

/-- Success characterization of `createQuery`. -/
theorem createQuery_ok_iff (db : Db) (input : CreateQueryInput) (ml : MLOutcome) (now : Nat)
    (db' : Db) (q : Query) :
    createQuery db input ml now = .ok (db', q) ↔
      ((db.channels.find? (fun c => c.id == input.channelId)).isSome ∧
        categoryOkOf db input ml = true ∧
        externalIdTaken db input.externalId = false ∧
        db' = createdDb db input ml now ∧
        q = newQueryOf db input ml now) := by
  unfold createQuery
  cases hch : db.channels.find? (fun c => c.id == input.channelId) <;>
    cases hco : categoryOkOf db input ml <;>
      cases hext : externalIdTaken db input.externalId <;>
        simp [hch, hco, hext, and_comm, eq_comm]

/-- A duplicate external key makes `createQuery` fail, whatever else holds. -/
theorem createQuery_taken_not_ok (db : Db) (input : CreateQueryInput) (ml : MLOutcome)
    (now : Nat) (h : externalIdTaken db input.externalId = true) :
    (createQuery db input ml now).isOk = false := by
  unfold createQuery
  cases hch : db.channels.find? (fun c => c.id == input.channelId) <;>
    cases hco : categoryOkOf db input ml <;>
      simp [hch, hco, h, Except.isOk, Except.toBool]

/-- `find?` over an id-preserving pointwise update of the hit entry. -/
theorem find?_update_id (l : List Query) (qid : Nat) (u : Query → Query)
    (hu : ∀ q, (u q).id = q.id) :
    (l.map (fun q => if q.id == qid then u q else q)).find? (fun q => q.id == qid)
      = (l.find? (fun q => q.id == qid)).map u := by
  induction l with
  | nil => rfl
  | cons hd tl ih =>
    simp only [List.map_cons, List.find?]
    cases hhd : hd.id == qid
    · have h1 : (if false = true then u hd else hd) = hd := by simp
      rw [h1, hhd]
      exact ih
    · have h1 : (if true = true then u hd else hd) = u hd := by simp
      rw [h1]
      have h2 : ((u hd).id == qid) = true := by rw [hu hd]; exact hhd
      rw [h2]
      rfl

/-- `find?` skips a prefix in which nothing matches. -/
theorem find?_append_of_none {α : Type} (l1 l2 : List α) (p : α → Bool)
    (h : l1.find? p = none) : (l1 ++ l2).find? p = l2.find? p := by
  induction l1 with
  | nil => rfl
  | cons hd tl ih =>
    simp only [List.cons_append, List.find?]
    cases hhd : p hd
    · have h' : List.find? p tl = none := by
        simp only [List.find?, hhd] at h
        exact h
      exact ih h'
    · simp only [List.find?, hhd] at h
      exact absurd h (by simp)

/-- A list containing a matching element has a successful `find?`. -/
theorem find?_isSome_of_mem {α : Type} (l : List α) (p : α → Bool) (x : α)
    (hx : x ∈ l) (hp : p x = true) : (l.find? p).isSome = true := by
  induction l with
  | nil => cases hx
  | cons hd tl ih =>
    cases hhd : p hd
    · rcases List.mem_cons.mp hx with h | h
      · rw [← h] at hhd
        rw [hp] at hhd
        cases hhd
      · simp only [List.find?, hhd]
        exact ih h
    · simp [List.find?, hhd]

/-- `categoryOkOf` always holds when the caller supplied no category id:
the only id the classifier path can produce is one fetched from the store. -/
theorem categoryOkOf_of_none (db : Db) (input : CreateQueryInput) (ml : MLOutcome)
    (h : input.categoryId = none) : categoryOkOf db input ml = true := by
  unfold categoryOkOf finalCategoryIdOf
  rw [h]
  cases hc : (mlAnalysisOf input ml).bind (·.category)
  · rfl
  case some cname =>
    cases he : cname == ""
    · cases hf : db.categories.find? (fun cat => lowerChars cat.name == lowerChars cname)
      · simp [he, hf]
      case some cat =>
        simp only [he, hf, Bool.false_eq_true, if_false]
        exact find?_isSome_of_mem _ _ cat (List.mem_of_find?_eq_some hf) (by simp)
    · simp [he]

/-- A list on which `find?` misses filters to nothing. -/
theorem filter_nil_of_find?_none {α : Type} (l : List α) (p : α → Bool)
    (h : l.find? p = none) : l.filter p = [] := by
  induction l with
  | nil => rfl
  | cons hd tl ih =>
    cases hhd : p hd
    · have h' : List.find? p tl = none := by
        simp only [List.find?, hhd] at h
        exact h
      simp [List.filter, hhd, ih h']
    · simp only [List.find?, hhd] at h
      exact absurd h (by simp)

/-- A list refuted by `any` filters to nothing. -/
theorem filter_nil_of_any_false {α : Type} (l : List α) (p : α → Bool)
    (h : l.any p = false) : l.filter p = [] := by
  induction l with
  | nil => rfl
  | cons hd tl ih =>
    have h' : (p hd || tl.any p) = false := by
      rw [← List.any_cons]
      exact h
    rcases Bool.or_eq_false_iff.mp h' with ⟨h1, h2⟩
    simp [List.filter, h1, ih h2]

/-- JS `a || b` falls through to `b` on a falsy `a`. -/
theorem orElseStr_of_falsy (a : Option String) (b : String)
    (h : strTruthy a = false) : orElseStr a b = b := by
  cases a
  · rfl
  case some s =>
    have he : (s == "") = true := by simpa [strTruthy] using h
    simp [orElseStr, he]

/-- `detectPriority` answers `HIGH` whenever the content contains the
keyword `urgent`, whatever the VIP flag and sentiment are. -/
theorem detectPriority_high_of_urgent (content : String) (v : Bool) (s : String)
    (h : includesLower content "urgent" = true) :
    detectPriority content v s = "HIGH" := by
  unfold detectPriority
  cases v
  · cases hs : s == "NEGATIVE"
    · have hany : urgentKeywords.any (fun keyword => includesLower content keyword) = true :=
        List.any_eq_true.mpr ⟨"urgent", by simp [urgentKeywords], h⟩
      simp [hs, hany]
    · simp [hs]
  · rfl

/-- `assignResultDb` inserts exactly the new Assignment row. -/
theorem assignResultDb_assignments (db : Db) (queryId userId : Nat) (ab : Option Nat)
    (notes : Option String) (now : Nat) (q0 : Query) :
    (assignResultDb db queryId userId ab notes now q0).assignments
      = db.assignments ++ [newAssignmentOf db queryId userId ab notes] := by
  unfold assignResultDb
  cases q0.status == "NEW" <;> rfl

/-- `assignResultDb` never touches the users table. -/
theorem assignResultDb_users (db : Db) (queryId userId : Nat) (ab : Option Nat)
    (notes : Option String) (now : Nat) (q0 : Query) :
    (assignResultDb db queryId userId ab notes now q0).users = db.users := by
  unfold assignResultDb
  cases q0.status == "NEW" <;> rfl

/-- Success characterization of `assignQuery`, given the stored query row. -/
theorem assignQuery_ok_iff (db : Db) (queryId userId : Nat) (ab : Option Nat)
    (notes : Option String) (now : Nat) (db' : Db) (a : Assignment) (q0 : Query)
    (hq : db.queries.find? (fun x => x.id == queryId) = some q0) :
    assignQuery db queryId userId ab notes now = .ok (db', a) ↔
      ((db.users.find? (fun u => u.id == userId)).isSome ∧
        db.assignments.find? (fun x => x.queryId == queryId && x.userId == userId) = none ∧
        db' = assignResultDb db queryId userId ab notes now q0 ∧
        a = newAssignmentOf db queryId userId ab notes) := by
  unfold assignQuery
  rw [hq]
  cases hu : db.users.find? (fun u => u.id == userId) <;>
    cases hd : db.assignments.find? (fun x => x.queryId == queryId && x.userId == userId) <;>
      simp [hu, hd, and_comm, eq_comm]

/-- Success characterization of `createResponse`, given the stored query row. -/
theorem createResponse_ok_iff (db : Db) (input : CreateResponseInput) (db' : Db)
    (r : Response) (q0 : Query)
    (hq : db.queries.find? (fun x => x.id == input.queryId) = some q0) :
    createResponse db input = .ok (db', r) ↔
      ((db.users.find? (fun u => u.id == input.userId)).isSome ∧
        db' = respondResultDb db input q0 ∧
        r = newResponseOf db input) := by
  unfold createResponse
  rw [hq]
  cases hu : db.users.find? (fun u => u.id == input.userId) <;>
    simp [hu, and_comm, eq_comm]

/-- Success characterization of `updateQuery`, given the stored query row. -/
theorem updateQuery_ok_iff (db : Db) (queryId : Nat) (upd : UpdateQueryInput)
    (now : Nat) (db' : Db) (q' : Query) (q0 : Query)
    (hq : db.queries.find? (fun x => x.id == queryId) = some q0) :
    updateQuery db queryId upd now = .ok (db', q') ↔
      (q' = updatedQueryOf q0 upd now ∧
        db' = { db with
          queries := db.queries.map (fun x =>
            if x.id == queryId then updatedQueryOf q0 upd now else x) }) := by
  unfold updateQuery
  rw [hq]
  simp only [Except.ok.injEq, Prod.mk.injEq]
  constructor
  · rintro ⟨h1, h2⟩
    exact ⟨h2.symm, h1.symm⟩
  · rintro ⟨h1, h2⟩
    exact ⟨h2.symm, h1.symm⟩

/-! ### Claim C8 -/

/-- C8 counterexample: for channel 1 the registry tracks an instance whose
`stop()` throws; `stopChannel` propagates the error and the entry is NOT
removed — it is still registered afterwards, contradicting the claim that
removal proceeds even when `stop()` raises. -/
theorem stop_error_keeps_registry_entry_cx :
    regGet [(1, instBad)] 1 = some instBad ∧
    stopChannel [(1, instBad)] 1 = (.error "stop failed", [(1, instBad)]) ∧
    regGet (stopChannel [(1, instBad)] 1).2 1 = some instBad := by
  exact ⟨rfl, rfl, rfl⟩

/-- C8 (amended): `stopChannel` removes the tracked instance only when its
`stop()` succeeds; when `stop()` raises, the error is logged and rethrown
and the instance remains in the registry; with no tracked instance the
registry is left unchanged and no error is raised. -/
theorem stopChannel_registry_spec (reg : Registry) (channelId : Nat) :
    (regGet reg channelId = none → stopChannel reg channelId = (.ok (), reg)) ∧
    (∀ inst, regGet reg channelId = some inst →
      (inst.behavior.stopOutcome = .ok () →
        stopChannel reg channelId = (.ok (), regDelete reg channelId)) ∧
      (∀ e, inst.behavior.stopOutcome = .error e →
        stopChannel reg channelId = (.error e, reg))) := by
  unfold stopChannel
  refine ⟨fun h => by rw [h], fun inst h => ⟨fun hs => by rw [h]; simp [hs],
    fun e hs => by rw [h]; simp [hs]⟩⟩

/-- C8 witness: a failing `stop()` leaves the entry and propagates the
error; a succeeding `stop()` removes the entry. -/
theorem stopChannel_registry_spec_witness :
    stopChannel [(1, instBad)] 1 = (.error "stop failed", [(1, instBad)]) ∧
    stopChannel [(1, instOld)] 1 = (.ok (), regDelete [(1, instOld)] 1) := by
  exact ⟨((stopChannel_registry_spec [(1, instBad)] 1).2 instBad rfl).2 "stop failed" rfl,
    ((stopChannel_registry_spec [(1, instOld)] 1).2 instOld rfl).1 rfl⟩

/-! ### Claim C9 -/

/-- C9 counterexample: channel 1 has a registered runtime instance; a
successful `testChannelConnection` run deletes the channel's registry entry,
so the registry is NOT the same as before the call — the prior runtime
instance is gone. -/
theorem test_connection_removes_prior_instance_cx :
    regGet [(1, instOld)] 1 = some instOld ∧
    (testChannelConnection [chan1] [(1, instOld)] 1 behaviorGood).2 = [] ∧
    regGet (testChannelConnection [chan1] [(1, instOld)] 1 behaviorGood).2 1 = none := by
  exact ⟨rfl, rfl, rfl⟩

/-- C9 (amended): `testChannelConnection` leaves the registry unchanged when
the channel is missing, inactive, or of an unsupported type; otherwise it
registers the throwaway instance (overwriting any previous entry for that
channel) and then: on a returning `testConnection()` it deletes the
channel's entry (also discarding any previously registered instance), while
on a throwing `testConnection()` the throwaway instance stays registered. -/
theorem testChannelConnection_registry_spec (channels : List Channel) (reg : Registry)
    (cid : Nat) (fresh : IntegrationBehavior) :
    (channels.find? (fun c => c.id == cid) = none →
      testChannelConnection channels reg cid fresh
        = ({ success := false, message := "Channel not found" }, reg)) ∧
    (∀ ch, channels.find? (fun c => c.id == cid) = some ch → ch.isActive = false →
      (testChannelConnection channels reg cid fresh).2 = reg) ∧
    (∀ ch, channels.find? (fun c => c.id == cid) = some ch → ch.isActive = true →
      supportedChannelTypes.contains ch.type = false →
      (testChannelConnection channels reg cid fresh).2 = reg) ∧
    (∀ ch, channels.find? (fun c => c.id == cid) = some ch → ch.isActive = true →
      supportedChannelTypes.contains ch.type = true →
      (∀ r, fresh.testOutcome = .ok r →
        testChannelConnection channels reg cid fresh
          = (r, regDelete (regSet reg cid { channelId := cid, behavior := fresh }) cid)) ∧
      (∀ e, fresh.testOutcome = .error e →
        testChannelConnection channels reg cid fresh
          = ({ success := false, message := e },
             regSet reg cid { channelId := cid, behavior := fresh }))) := by
  unfold testChannelConnection initializeChannel
  refine ⟨fun h => by rw [h], fun ch h ha => by rw [h]; simp [ha],
    fun ch h ha hs => by
      rw [h]
      simp [ha, (by simpa using hs : ¬ ch.type ∈ supportedChannelTypes)],
    fun ch h ha hs =>
      ⟨fun r ht => by
        rw [h]
        simp [ha, (by simpa using hs : ch.type ∈ supportedChannelTypes), ht],
      fun e ht => by
        rw [h]
        simp [ha, (by simpa using hs : ch.type ∈ supportedChannelTypes), ht]⟩⟩

/-- C9 witness: a successful test deletes the (previously occupied) entry;
a throwing `testConnection` leaves the throwaway instance registered. -/
theorem testChannelConnection_registry_spec_witness :
    testChannelConnection [chan1] [(1, instOld)] 1 behaviorGood
      = (okResult, regDelete (regSet [(1, instOld)] 1 { channelId := 1, behavior := behaviorGood }) 1) ∧
    testChannelConnection [chan1] [] 1 behaviorTestThrows
      = ({ success := false, message := "connection refused" },
         regSet [] 1 { channelId := 1, behavior := behaviorTestThrows }) := by
  exact ⟨((testChannelConnection_registry_spec [chan1] [(1, instOld)] 1 behaviorGood).2.2.2
      chan1 rfl rfl rfl).1 okResult rfl,
    ((testChannelConnection_registry_spec [chan1] [] 1 behaviorTestThrows).2.2.2
      chan1 rfl rfl rfl).2 "connection refused" rfl⟩

/-! ### Claim C5 -/

/-- C5 counterexample: the fallback analysis returned on a classifier
timeout does NOT carry empty tags — its `auto_tags` list holds three fixed
tags (only its `keywords` list is empty). -/
theorem default_analysis_tags_nonempty_cx :
    MLService.analyzeQuery .timeout = MLService.getDefaultAnalysis ∧
    (MLService.analyzeQuery .timeout).auto_tags
      = ["question", "sentiment_neutral", "priority_medium"] ∧
    (MLService.analyzeQuery .timeout).auto_tags ≠ [] := by
  exact ⟨rfl, rfl, by decide⟩

/-- C5 (amended): on timeout, connection failure, non-2xx or empty body the
gateway returns the fixed neutral fallback — category `question`, sentiment
`NEUTRAL`, priority `MEDIUM`, not urgent, not VIP, with the fixed three-tag
`auto_tags` list (not empty tags) and empty keywords — and never propagates
an error; `createQuery` on an otherwise valid input still succeeds under
classifier failure, persisting sentiment `NEUTRAL`, priority `MEDIUM` and
`isVip = false` when the caller supplied no overriding signals. -/
theorem classifier_fallback_spec :
    (∀ o : MLOutcome, mlFailed o = true →
      MLService.analyzeQuery o = MLService.getDefaultAnalysis) ∧
    MLService.getDefaultAnalysis.category = some "question" ∧
    MLService.getDefaultAnalysis.sentiment = some "NEUTRAL" ∧
    MLService.getDefaultAnalysis.priority = some "MEDIUM" ∧
    MLService.getDefaultAnalysis.is_urgent = false ∧
    MLService.getDefaultAnalysis.is_vip = false ∧
    MLService.getDefaultAnalysis.auto_tags
      = ["question", "sentiment_neutral", "priority_medium"] ∧
    MLService.getDefaultAnalysis.keywords = [] ∧
    (∀ (db : Db) (i : CreateQueryInput) (o : MLOutcome) (now : Nat),
      mlFailed o = true →
      (db.channels.find? (fun c => c.id == i.channelId)).isSome = true →
      i.categoryId = none →
      externalIdTaken db i.externalId = false →
      i.sentiment = none → i.priority = none → i.isVip = none →
      i.skipMLAnalysis = false → i.content ≠ "" →
      createQuery db i o now = .ok (createdDb db i o now, newQueryOf db i o now) ∧
      (newQueryOf db i o now).sentiment = "NEUTRAL" ∧
      (newQueryOf db i o now).priority = "MEDIUM" ∧
      (newQueryOf db i o now).isVip = false) := by
  refine ⟨fun o hf => ?_, rfl, rfl, rfl, rfl, rfl, rfl, rfl, ?_⟩
  · cases o <;> first | rfl | exact absurd hf (by simp [mlFailed])
  · intro db i o now hfail hch hcat hext hsent hpri hvip hskip hcont
    have hml : mlAnalysisOf i o = some MLService.getDefaultAnalysis := by
      unfold mlAnalysisOf
      rw [hskip]
      have hc : (i.content == "") = false := by
        simpa using hcont
      rw [hc]
      have ha : MLService.analyzeQuery o = MLService.getDefaultAnalysis := by
        cases o <;> first | rfl | exact absurd hfail (by simp [mlFailed])
      simp [ha]
    refine ⟨(createQuery_ok_iff db i o now _ _).mpr
        ⟨hch, categoryOkOf_of_none db i o hcat, hext, rfl, rfl⟩, ?_, ?_, ?_⟩
    · simp [newQueryOf, finalSentimentOf, hml, hsent, orElseStr, MLService.getDefaultAnalysis]
    · simp [newQueryOf, finalPriorityOf, priorityBeforeDetect, hml, hpri, strTruthy,
        orElseStr, MLService.getDefaultAnalysis]
    · simp [newQueryOf, finalIsVipOf, hml, hvip, MLService.getDefaultAnalysis]

/-- C5 witness: the classifier times out on a plain event; ingestion still
succeeds with the neutral fields. -/
theorem classifier_fallback_spec_witness :
    createQuery baseDb c5Input .timeout 3
      = .ok (createdDb baseDb c5Input .timeout 3, newQueryOf baseDb c5Input .timeout 3) ∧
    (newQueryOf baseDb c5Input .timeout 3).sentiment = "NEUTRAL" ∧
    (newQueryOf baseDb c5Input .timeout 3).priority = "MEDIUM" ∧
    (newQueryOf baseDb c5Input .timeout 3).isVip = false :=
  classifier_fallback_spec.2.2.2.2.2.2.2.2 baseDb c5Input .timeout 3
    rfl rfl rfl rfl rfl rfl rfl rfl (by decide)

/-! ### Claim C2 -/

/-- C2 counterexample: `q200` is `NEW` and the created Response is internal
(`isInternal = true`), yet the query's status changes to `IN_PROGRESS` —
contradicting the claim that an internal Response never changes status. -/
theorem internal_response_changes_status_cx :
    q200.status = "NEW" ∧ c2Input.isInternal = true ∧
    (match createResponse twoQueryDb c2Input with
      | .ok (db', _) => (db'.queries.find? (fun q => q.id == 200)).map (·.status)
      | .error _ => none) = some "IN_PROGRESS" := by
  exact ⟨rfl, rfl, rfl⟩

/-- C2 (amended): creating any Response — internal or not — for a query
whose status is `NEW` or `ASSIGNED` transitions the query to `IN_PROGRESS`;
a Response on a query in any other status never changes the stored queries. -/
theorem createResponse_status_transition (db : Db) (inp : CreateResponseInput)
    (db' : Db) (r : Response) (q0 : Query)
    (hq : db.queries.find? (fun x => x.id == inp.queryId) = some q0)
    (hok : createResponse db inp = .ok (db', r)) :
    ((q0.status = "NEW" ∨ q0.status = "ASSIGNED") →
      (db'.queries.find? (fun x => x.id == inp.queryId)).map (·.status)
        = some "IN_PROGRESS") ∧
    (q0.status ≠ "NEW" → q0.status ≠ "ASSIGNED" → db'.queries = db.queries) := by
  obtain ⟨-, hdb, -⟩ := (createResponse_ok_iff db inp db' r q0 hq).mp hok
  subst hdb
  constructor
  · intro hst
    have hcond : (q0.status == "NEW" || q0.status == "ASSIGNED") = true := by
      rcases hst with h | h <;> simp [h]
    simp only [respondResultDb, hcond, if_true]
    rw [find?_update_id db.queries inp.queryId
      (fun q => { q with status := "IN_PROGRESS" }) (fun q => rfl), hq]
    rfl
  · intro h1 h2
    have hcond : (q0.status == "NEW" || q0.status == "ASSIGNED") = false := by
      simp [h1, h2]
    simp [respondResultDb, hcond]

/-- C2 witness: an internal note on the `NEW` query moves it to
`IN_PROGRESS`; a reply on the already-`IN_PROGRESS` query changes nothing. -/
theorem createResponse_status_transition_witness :
    ((respondResultDb twoQueryDb c2Input q200).queries.find?
        (fun x => x.id == 200)).map (·.status) = some "IN_PROGRESS" ∧
    (respondResultDb twoQueryDb c2bInput q201).queries = twoQueryDb.queries := by
  exact ⟨(createResponse_status_transition twoQueryDb c2Input _ _ q200 rfl rfl).1 (Or.inl rfl),
    (createResponse_status_transition twoQueryDb c2bInput _ _ q201 rfl rfl).2
      (by decide) (by decide)⟩

/-! ### Claim C7 -/

/-- C7: on a successful `assignQuery`, the query moves to `ASSIGNED` with
`assignedAt` stamped iff its pre-call status was `NEW`; assigning a query in
any later status leaves the stored queries (status and `assignedAt`
included) untouched. -/
theorem assign_status_transition_iff (db : Db) (qid uid : Nat) (ab : Option Nat)
    (notes : Option String) (now : Nat) (db' : Db) (a : Assignment) (q0 : Query)
    (hq : db.queries.find? (fun x => x.id == qid) = some q0)
    (hok : assignQuery db qid uid ab notes now = .ok (db', a)) :
    (q0.status = "NEW" →
      db'.queries.find? (fun x => x.id == qid)
        = some { q0 with status := "ASSIGNED", assignedAt := some now }) ∧
    (q0.status ≠ "NEW" → db'.queries = db.queries) := by
  obtain ⟨-, -, hdb, -⟩ := (assignQuery_ok_iff db qid uid ab notes now db' a q0 hq).mp hok
  subst hdb
  constructor
  · intro hst
    have hcond : (q0.status == "NEW") = true := by simp [hst]
    simp only [assignResultDb, hcond, if_true]
    rw [find?_update_id db.queries qid
      (fun q => { q with status := "ASSIGNED", assignedAt := some now }) (fun q => rfl), hq]
    rfl
  · intro h
    have hcond : (q0.status == "NEW") = false := by simp [h]
    simp [assignResultDb, hcond]

/-- C7 witness: assigning the `NEW` query `q200` stamps it `ASSIGNED` at
time 9; assigning the `IN_PROGRESS` query `q201` leaves the queries alone. -/
theorem assign_status_transition_iff_witness :
    (assignResultDb twoQueryDb 200 7 none none 9 q200).queries.find?
        (fun x => x.id == 200)
      = some { q200 with status := "ASSIGNED", assignedAt := some 9 } ∧
    (assignResultDb twoQueryDb 201 7 none none 9 q201).queries = twoQueryDb.queries := by
  exact ⟨(assign_status_transition_iff twoQueryDb 200 7 none none 9 _ _ q200 rfl rfl).1 rfl,
    (assign_status_transition_iff twoQueryDb 201 7 none none 9 _ _ q201 rfl rfl).2 (by decide)⟩

/-! ### Claim C6 -/

/-- C6: after a successful assignment of user `uid` to query `qid`, a second
`assignQuery` for the same pair fails with the duplicate-assignment
`ValidationError` (reported, not ignored), no matter its arguments, and the
store holds exactly one Assignment row for the pair (none existed before,
one exists after; the failed call returns no modified store). -/
theorem duplicate_assignment_rejected (db : Db) (qid uid : Nat) (ab : Option Nat)
    (notes : Option String) (now : Nat) (db1 : Db) (a1 : Assignment) (q0 : Query)
    (hq : db.queries.find? (fun x => x.id == qid) = some q0)
    (hok : assignQuery db qid uid ab notes now = .ok (db1, a1)) :
    (∀ (ab2 : Option Nat) (notes2 : Option String) (now2 : Nat),
      assignQuery db1 qid uid ab2 notes2 now2
        = .error (.validation "Query is already assigned to this user")) ∧
    (db.assignments.filter (fun x => x.queryId == qid && x.userId == uid)).length = 0 ∧
    (db1.assignments.filter (fun x => x.queryId == qid && x.userId == uid)).length = 1 := by
  obtain ⟨hu, hdup, hdb, -⟩ := (assignQuery_ok_iff db qid uid ab notes now db1 a1 q0 hq).mp hok
  have hassign : db1.assignments = db.assignments ++ [newAssignmentOf db qid uid ab notes] := by
    rw [hdb]
    exact assignResultDb_assignments db qid uid ab notes now q0
  have husers : db1.users = db.users := by
    rw [hdb]
    exact assignResultDb_users db qid uid ab notes now q0
  have hfilter0 : db.assignments.filter (fun x => x.queryId == qid && x.userId == uid) = [] :=
    filter_nil_of_find?_none _ _ hdup
  refine ⟨?_, ?_, ?_⟩
  · intro ab2 notes2 now2
    have hq1 : ∃ q1, db1.queries.find? (fun x => x.id == qid) = some q1 := by
      rw [hdb]
      unfold assignResultDb
      cases hcond : q0.status == "NEW"
      · exact ⟨q0, by simpa [hcond] using hq⟩
      · refine ⟨{ q0 with status := "ASSIGNED", assignedAt := some now }, ?_⟩
        simp only [hcond, if_true]
        rw [find?_update_id db.queries qid
          (fun q => { q with status := "ASSIGNED", assignedAt := some now }) (fun q => rfl), hq]
        rfl
    obtain ⟨q1, hq1⟩ := hq1
    unfold assignQuery
    rw [hq1, husers]
    cases hu' : db.users.find? (fun u => u.id == uid)
    · rw [hu'] at hu
      exact absurd hu (by simp)
    · rw [hassign, find?_append_of_none _ _ _ hdup]
      simp [newAssignmentOf]
  · rw [hfilter0]
    rfl
  · rw [hassign]
    simp [List.filter_append, hfilter0, newAssignmentOf]

/-- C6 witness: assigning user 7 to query 200 once succeeds; the duplicate
is rejected and exactly one Assignment row exists. -/
theorem duplicate_assignment_rejected_witness :
    assignQuery (assignResultDb twoQueryDb 200 7 none none 9 q200) 200 7 none none 10
      = .error (.validation "Query is already assigned to this user") ∧
    (twoQueryDb.assignments.filter (fun x => x.queryId == 200 && x.userId == 7)).length = 0 ∧
    ((assignResultDb twoQueryDb 200 7 none none 9 q200).assignments.filter
      (fun x => x.queryId == 200 && x.userId == 7)).length = 1 :=
  ⟨(duplicate_assignment_rejected twoQueryDb 200 7 none none 9 _ _ q200 rfl rfl).1 none none 10,
    (duplicate_assignment_rejected twoQueryDb 200 7 none none 9 _ _ q200 rfl rfl).2.1,
    (duplicate_assignment_rejected twoQueryDb 200 7 none none 9 _ _ q200 rfl rfl).2.2⟩

/-! ### Claim C4 -/

/-- C4: every newly created query satisfies `slaDueAt = receivedAt +`
hours-per-priority lookup, with the lookup fixed at CRITICAL 1h / HIGH 4h /
MEDIUM 24h / LOW 72h; and every `updateQuery` that changes the priority to a
different (truthy) value recomputes `slaDueAt` from the update time — not
from the original `receivedAt`. -/
theorem sla_due_at_spec :
    (∀ (db : Db) (i : CreateQueryInput) (ml : MLOutcome) (now : Nat) (db' : Db) (q : Query),
      createQuery db i ml now = .ok (db', q) →
      q.slaDueAt = q.receivedAt + slaHours q.priority) ∧
    slaHours "CRITICAL" = 1 ∧ slaHours "HIGH" = 4 ∧
    slaHours "MEDIUM" = 24 ∧ slaHours "LOW" = 72 ∧
    (∀ (db : Db) (qid : Nat) (upd : UpdateQueryInput) (now : Nat) (db' : Db)
        (q' q0 : Query) (p : String),
      db.queries.find? (fun x => x.id == qid) = some q0 →
      upd.priority = some p → p ≠ "" → p ≠ q0.priority →
      updateQuery db qid upd now = .ok (db', q') →
      q'.slaDueAt = calculateSlaDueAt now p) := by
  refine ⟨?_, rfl, rfl, rfl, rfl, ?_⟩
  · intro db i ml now db' q hok
    obtain ⟨-, -, -, -, hqe⟩ := (createQuery_ok_iff db i ml now db' q).mp hok
    subst hqe
    simp [newQueryOf, calculateSlaDueAt]
  · intro db qid upd now db' q' q0 p hq hp hne hnq hok
    obtain ⟨hqe, -⟩ := (updateQuery_ok_iff db qid upd now db' q' q0 hq).mp hok
    subst hqe
    have h1 : (p == "") = false := by simpa using hne
    have h2 : (p == q0.priority) = false := by simpa using hnq
    simp [updatedQueryOf, hp, h1, h2]

/-- C4 witness: the freshly ingested MEDIUM query has `slaDueAt = receivedAt
+ 24`; overriding its priority to CRITICAL at time 500 yields `slaDueAt =
501`, based on the update time. -/
theorem sla_due_at_spec_witness :
    c1Query.slaDueAt = c1Query.receivedAt + slaHours c1Query.priority ∧
    c4Q2.slaDueAt = calculateSlaDueAt 500 "CRITICAL" := by
  exact ⟨sla_due_at_spec.1 baseDb c1Input .timeout 0 c1Db1 c1Query rfl,
    sla_due_at_spec.2.2.2.2.2 c1Db1 100 c4Upd 500 c4Db2 c4Q2 c1Query "CRITICAL"
      rfl rfl (by decide) (by decide) rfl⟩

/-! ### Claim C3 -/

/-- C3 counterexample: a createQuery input with no explicit priority whose
content contains `urgent`, ingested while the classifier runs (and times
out, yielding the MEDIUM fallback), persists priority `MEDIUM`, not `HIGH`
— the ML-supplied priority preempts the keyword heuristic. -/
theorem ml_priority_overrides_keyword_cx :
    c3Input.priority = none ∧
    includesLower c3Input.content "urgent" = true ∧
    (match createQuery baseDb c3Input .timeout 0 with
      | .ok (_, q) => some q.priority
      | .error _ => none) = some "MEDIUM" ∧
    "MEDIUM" ≠ "HIGH" := by
  exact ⟨rfl, by decide, rfl, by decide⟩

/-- C3 (amended): priority resolution in `createQuery` follows the
precedence: an explicitly supplied (truthy) priority wins outright;
otherwise, when the classifier ran (`skipMLAnalysis` false and non-empty
content) and returned a truthy priority, that ML priority is persisted; only
otherwise does `detectPriority` apply — VIP true yields HIGH, else NEGATIVE
sentiment yields HIGH, else an urgency-keyword substring match yields HIGH,
else MEDIUM. In particular an input with no explicit priority whose content
contains `urgent` persists HIGH when the classifier is skipped. -/
theorem priority_resolution_precedence (db : Db) (i : CreateQueryInput) (ml : MLOutcome)
    (now : Nat) (db' : Db) (q : Query)
    (hok : createQuery db i ml now = .ok (db', q)) :
    (∀ p, i.priority = some p → p ≠ "" → q.priority = p) ∧
    (strTruthy i.priority = false → i.skipMLAnalysis = true →
      q.priority = detectPriority i.content (i.isVip.getD false)
        (orElseStr i.sentiment "NEUTRAL")) ∧
    (∀ a p, strTruthy i.priority = false → i.skipMLAnalysis = false →
      i.content ≠ "" → ml = .ok a → a.priority = some p → p ≠ "" →
      q.priority = p) ∧
    (strTruthy i.priority = false → i.skipMLAnalysis = true →
      i.isVip = some true → q.priority = "HIGH") ∧
    (strTruthy i.priority = false → i.skipMLAnalysis = true →
      i.isVip.getD false = false → orElseStr i.sentiment "NEUTRAL" = "NEGATIVE" →
      q.priority = "HIGH") ∧
    (strTruthy i.priority = false → i.skipMLAnalysis = true →
      includesLower i.content "urgent" = true → q.priority = "HIGH") ∧
    (strTruthy i.priority = false → i.skipMLAnalysis = true →
      i.isVip.getD false = false → orElseStr i.sentiment "NEUTRAL" ≠ "NEGATIVE" →
      urgentKeywords.any (fun k => includesLower i.content k) = false →
      q.priority = "MEDIUM") := by
  obtain ⟨-, -, -, -, hqe⟩ := (createQuery_ok_iff db i ml now db' q).mp hok
  have hqp : q.priority = finalPriorityOf i ml := by
    rw [hqe]
    simp [newQueryOf]
  have key : strTruthy i.priority = false → i.skipMLAnalysis = true →
      q.priority = detectPriority i.content (i.isVip.getD false)
        (orElseStr i.sentiment "NEUTRAL") := by
    intro hfal hskip
    have hml : mlAnalysisOf i ml = none := by
      simp [mlAnalysisOf, hskip]
    have hpb : priorityBeforeDetect i ml = i.priority := by
      simp [priorityBeforeDetect, hml]
    have hvip : finalIsVipOf i ml = i.isVip.getD false := by
      cases hv : i.isVip <;> simp [finalIsVipOf, hml, hv]
    have hsent : finalSentimentOf i ml = orElseStr i.sentiment "NEUTRAL" := by
      simp [finalSentimentOf, hml]
      rfl
    rw [hqp]
    unfold finalPriorityOf
    rw [hpb, hvip, hsent, orElseStr_of_falsy _ _ hfal]
  refine ⟨?_, key, ?_, ?_, ?_, ?_, ?_⟩
  · intro p hp hne
    have h1 : (p == "") = false := by simpa using hne
    rw [hqp]
    simp [finalPriorityOf, priorityBeforeDetect, strTruthy, orElseStr, hp, h1]
  · intro a p hfal hskip hcont hmlo hap hne
    have hml : mlAnalysisOf i ml = some a := by
      have hc : (i.content == "") = false := by simpa using hcont
      simp [mlAnalysisOf, hskip, hc, hmlo, MLService.analyzeQuery]
    have h1 : (p == "") = false := by simpa using hne
    rw [hqp]
    unfold finalPriorityOf priorityBeforeDetect
    rw [hfal, hml]
    simp [hap, orElseStr, h1]
  · intro hfal hskip hv
    rw [key hfal hskip, hv]
    rfl
  · intro hfal hskip hv hs
    rw [key hfal hskip, hv, hs]
    rfl
  · intro hfal hskip hurg
    rw [key hfal hskip]
    exact detectPriority_high_of_urgent _ _ _ hurg
  · intro hfal hskip hv hs hany
    rw [key hfal hskip, hv]
    have hs' : (orElseStr i.sentiment "NEUTRAL" == "NEGATIVE") = false := by
      simpa using hs
    simp [detectPriority, hs', hany]

/-- C3 witness: with the classifier skipped, urgent-worded content persists
HIGH; an explicit LOW priority wins outright. -/
theorem priority_resolution_precedence_witness :
    c3aQ.priority = "HIGH" ∧ c3bQ.priority = "LOW" := by
  exact ⟨(priority_resolution_precedence baseDb c3aInput .timeout 0
      (createdDb baseDb c3aInput .timeout 0) c3aQ rfl).2.2.2.2.2.1 rfl rfl (by decide),
    (priority_resolution_precedence baseDb c3bInput .timeout 0
      (createdDb baseDb c3bInput .timeout 0) c3bQ rfl).1 "LOW" rfl (by decide)⟩

/-! ### Claim C1 -/

/-- C1 counterexample: the same external event (channel 1, key `evt-1`) fed
through `createQuery` twice: the second call does NOT return the existing
record unmodified — it throws the store's unique-index error. `createQuery`
performs no dedup lookup at all. -/
theorem c1_second_create_not_dedup_cx :
    (createQuery baseDb c1Input .timeout 0).isOk = true ∧
    createQuery c1Db1 c1Input .timeout 1
      = .error (.uniqueConstraint "queries_external_id_key") ∧
    (createQuery c1Db1 c1Input .timeout 1).isOk = false := by
  exact ⟨rfl, rfl, rfl⟩

/-- C1 (amended): `createQuery` performs no dedup lookup; once an event's
external key is persisted, feeding the event through `createQuery` again
never succeeds — the store's unique index rejects the insert with an error
instead of returning the existing record — so exactly one Query with that
key is persisted (none existed before the first call, one after, and the
failed second call modifies nothing). -/
theorem createQuery_duplicate_key_rejected (db : Db) (i : CreateQueryInput)
    (ml1 ml2 : MLOutcome) (t1 t2 : Nat) (db1 : Db) (q1 : Query) (e : String)
    (hext : i.externalId = some e)
    (hok : createQuery db i ml1 t1 = .ok (db1, q1)) :
    (createQuery db1 i ml2 t2).isOk = false ∧
    (db.queries.filter (fun x => x.externalId == some e)).length = 0 ∧
    (db1.queries.filter (fun x => x.externalId == some e)).length = 1 := by
  obtain ⟨-, -, htaken, hdb, -⟩ := (createQuery_ok_iff db i ml1 t1 db1 q1).mp hok
  have hany : db.queries.any (fun x => x.externalId == some e) = false := by
    unfold externalIdTaken at htaken
    rw [hext] at htaken
    exact htaken
  have hf0 : db.queries.filter (fun x => x.externalId == some e) = [] :=
    filter_nil_of_any_false _ _ hany
  refine ⟨?_, by rw [hf0]; rfl, ?_⟩
  · apply createQuery_taken_not_ok
    unfold externalIdTaken
    rw [hext, hdb]
    simp [createdDb, List.any_append, hany, newQueryOf, hext]
  · rw [hdb]
    simp [createdDb, List.filter_append, hf0, newQueryOf, hext]

/-- C1 witness: ingesting `evt-1` once succeeds; the second ingestion is
rejected and exactly one Query with that key is stored. -/
theorem createQuery_duplicate_key_rejected_witness :
    (createQuery c1Db1 c1Input .timeout 1).isOk = false ∧
    (baseDb.queries.filter (fun x => x.externalId == some "evt-1")).length = 0 ∧
    (c1Db1.queries.filter (fun x => x.externalId == some "evt-1")).length = 1 :=
  createQuery_duplicate_key_rejected baseDb c1Input .timeout .timeout 0 1 c1Db1 c1Query
    "evt-1" rfl rfl

/-! ### Claim C10 -/

/-- C10: the store's unique index is on `external_id` alone, globally across
channels: `createQuery` preserves the invariant that no two persisted
Queries share a non-null external key (with no channel restriction), and any
create whose external key is already used by some persisted Query — on any
channel — is rejected with an error rather than returning the existing
Query. -/
theorem external_id_globally_unique :
    (∀ (db : Db) (i : CreateQueryInput) (ml : MLOutcome) (now : Nat) (db' : Db) (q : Query),
      ExternalIdUnique db → createQuery db i ml now = .ok (db', q) →
      ExternalIdUnique db') ∧
    (∀ (db : Db) (i : CreateQueryInput) (ml : MLOutcome) (now : Nat) (e : String) (q0 : Query),
      q0 ∈ db.queries → q0.externalId = some e → i.externalId = some e →
      (createQuery db i ml now).isOk = false) := by
  constructor
  · intro db i ml now db' q huniq hok
    obtain ⟨-, -, htaken, hdb, -⟩ := (createQuery_ok_iff db i ml now db' q).mp hok
    subst hdb
    unfold ExternalIdUnique createdDb
    rw [List.pairwise_append]
    refine ⟨huniq, List.pairwise_singleton _ _, ?_⟩
    intro a ha b hb
    rw [List.mem_singleton.mp hb]
    cases hae : a.externalId
    · exact Or.inl rfl
    case some ea =>
      refine Or.inr fun hcontra => ?_
      have hie : i.externalId = some ea := by
        rw [show (newQueryOf db i ml now).externalId = i.externalId from by
          simp [newQueryOf]] at hcontra
        exact hcontra.symm
      have hanytrue : db.queries.any (fun x => x.externalId == some ea) = true :=
        List.any_eq_true.mpr ⟨a, ha, by simp [hae]⟩
      unfold externalIdTaken at htaken
      rw [hie] at htaken
      simp [hanytrue] at htaken
  · intro db i ml now e q0 hmem hq0 hie
    apply createQuery_taken_not_ok
    unfold externalIdTaken
    rw [hie]
    exact List.any_eq_true.mpr ⟨q0, hmem, by simp [hq0]⟩

/-- C10 witness: the invariant holds after ingesting `evt-1` into the empty
store, and a later create reusing `evt-1` is rejected. -/
theorem external_id_globally_unique_witness :
    ExternalIdUnique c1Db1 ∧ (createQuery c1Db1 c1Input .timeout 5).isOk = false :=
  ⟨external_id_globally_unique.1 baseDb c1Input .timeout 0 c1Db1 c1Query
      (by simp [ExternalIdUnique, baseDb]) rfl,
    external_id_globally_unique.2 c1Db1 c1Input .timeout 5 "evt-1" c1Query
      (by decide) rfl rfl⟩


end QTS
